/-
Verification of the departure pipeline of `src/tisseo.py` (a thin client for
the Tisséo real-time departure API): stop resolution, departure fetching,
passage construction, relative-time formatting, filtering and deduplication.

Shallow embedding conventions:
  * Python strings are Lean `String`; `str.lower()` is modelled on the ASCII
    range (`pyLower`), which covers every comparison the program performs.
  * Python exceptions are an explicit error type `Err`; fallible functions
    return `Except Err _`.  `KeyError` stands for the not-found error,
    `ConnectionError` for the transport error, `TypeError` for the timestamp
    validation error, and `unboundLocal` for a `return` of a local variable
    that no execution path assigned.
  * The network is a function from the request URL to an `HttpResponse`; the
    JSON decoding of the body into the departure list is part of the
    response record.
  * `datetime` values are a plain record of calendar fields plus an optional
    time-zone name; the time-zone database and the current instant are an
    explicit environment `Env`.
  * Python `timedelta` normalisation (days = floor of the total length in
    days, seconds = the non-negative remainder) is `Timedelta.ofSeconds`.
-/
import Mathlib

set_option linter.unusedVariables false

deriving instance DecidableEq for Except

/-- ASCII model of Python `str.lower()`. -/
def pyLower (s : String) : String := ⟨s.data.map Char.toLower⟩

/-- Whether the second list of characters occurs at the start of the first. -/
def prefixEq : List Char → List Char → Bool
  | _, [] => true
  | [], _ :: _ => false
  | a :: as, b :: bs => a == b && prefixEq as bs

/-- Whether the second list of characters occurs inside the first. -/
def containsSub : List Char → List Char → Bool
  | _, [] => true
  | [], _ :: _ => false
  | c :: cs, b :: bs => prefixEq (c :: cs) (b :: bs) || containsSub cs (b :: bs)

/-- Model of Python's substring test `sub in s`. -/
def strContains (s sub : String) : Bool := containsSub s.data sub.data

/-- One entry of the preloaded stop directory (`stop_areas.json`). -/
structure StopRecord where
  name : String
  id : String
deriving Repr, DecidableEq

/-- One raw departure of the API response: `dateTime`, `line.shortName` and
`destination[0].name` of the decoded JSON record. -/
structure RawDeparture where
  dateTime : String
  lineShortName : String
  destinationName : String
deriving Repr, DecidableEq

/-- A Python `datetime`: calendar fields plus the attached time-zone name
(`tzinfo`), `none` for a naive datetime. -/
structure DateTimeObj where
  year : Nat
  month : Nat
  day : Nat
  hour : Nat
  minute : Nat
  second : Nat
  tzinfo : Option String
deriving Repr, DecidableEq

/-- A Python `timedelta` in normalised form: `days` may be negative,
`seconds` is the remainder of the day and lies in `[0, 86400)` whenever the
value is built by `Timedelta.ofSeconds`. -/
structure Timedelta where
  days : Int
  seconds : Nat
deriving Repr, DecidableEq

/-- Python `timedelta` normalisation of a signed length in seconds:
`days` is the floor of the length in days, `seconds` the non-negative
remainder. -/
def Timedelta.ofSeconds (t : Int) : Timedelta :=
  ⟨Int.fdiv t 86400, (Int.fmod t 86400).toNat⟩

/-- The exceptions the program raises. -/
inductive Err where
  /-- Python `KeyError`: the not-found error of the stop resolver. -/
  | keyError (msg : String)
  /-- Python `requests.ConnectionError`: the transport error. -/
  | connectionError (msg : String)
  /-- Python `TypeError`: the timestamp validation error. -/
  | typeError (msg : String)
  /-- Python `UnboundLocalError`: a local variable read before assignment. -/
  | unboundLocal (name : String)
deriving Repr, DecidableEq

/-- Model of `_timedelta_to_str` of `src/tisseo.py`: the French human string of a
normalised duration.  Hours and minutes come from `divmod` of the
remainder-of-day seconds by 3600 then 60. -/
def timedelta_to_str (time_delta : Timedelta) : String :=
  let days : Int := time_delta.days
  let hours : Nat := time_delta.seconds / 3600
  let rem : Nat := time_delta.seconds % 3600
  let minutes : Nat := rem / 60
  if days > 0 then
    toString days ++ " jours"
  else if hours > 0 then
    let delta := toString hours ++ " heures"
    if minutes > 0 then delta ++ (" et " ++ toString minutes ++ " minutes") else delta
  else if minutes < 1 then
    "moins d'une minute"
  else
    toString minutes ++ " minutes"

example : timedelta_to_str ⟨0, 8100⟩ = "2 heures et 15 minutes" := by decide
example : timedelta_to_str ⟨0, 0⟩ = "moins d'une minute" := by decide
example : Timedelta.ofSeconds (-1800) = ⟨-1, 84600⟩ := by decide
example : timedelta_to_str (Timedelta.ofSeconds (-1800)) = "23 heures et 30 minutes" := by decide

/-! ## Parsing a timestamp (`strptime` with the fixed format) -/

/-- The digit value of an ASCII digit. -/
def digitVal (c : Char) : Option Nat :=
  if c.isDigit then some (c.toNat - 48) else none

/-- Match exactly `n` leading digits, returning their value and the rest.
Models the `strptime` regex fragment for `%Y` (exactly four digits). -/
def takeDigits : Nat → Nat → List Char → Option (Nat × List Char)
  | acc, 0, cs => some (acc, cs)
  | acc, n + 1, c :: cs =>
    match digitVal c with
    | some d => takeDigits (acc * 10 + d) n cs
    | none => none
  | _, _ + 1, [] => none

/-- Match one or two leading digits whose value lies in `[lo, hi]`, preferring
two: models the `strptime` regex alternations for `%m`, `%d`, `%H`, `%M`,
`%S` (a two-digit match in range, else a one-digit match in range). -/
def takeNum2 (lo hi : Nat) : List Char → Option (Nat × List Char)
  | c1 :: c2 :: rest =>
    match digitVal c1, digitVal c2 with
    | some d1, some d2 =>
      let v2 := d1 * 10 + d2
      if lo ≤ v2 ∧ v2 ≤ hi then some (v2, rest)
      else if lo ≤ d1 ∧ d1 ≤ hi then some (d1, c2 :: rest)
      else none
    | some d1, none =>
      if lo ≤ d1 ∧ d1 ≤ hi then some (d1, c2 :: rest) else none
    | none, _ => none
  | [c1] =>
    match digitVal c1 with
    | some d1 => if lo ≤ d1 ∧ d1 ≤ hi then some (d1, []) else none
    | none => none
  | [] => none

/-- Match one expected literal character. -/
def expectChar (c : Char) : List Char → Option (List Char)
  | x :: rest => if x = c then some rest else none
  | [] => none

/-- Whether `y` is a leap year (the Gregorian rule the `datetime` constructor
applies when it validates the day of the month). -/
def isLeapYear (y : Nat) : Bool :=
  (y % 4 == 0 && y % 100 != 0) || y % 400 == 0

/-- The number of days of month `m` of year `y`. -/
def daysInMonth (y m : Nat) : Nat :=
  if m = 2 then (if isLeapYear y then 29 else 28)
  else if m = 4 ∨ m = 6 ∨ m = 9 ∨ m = 11 then 30
  else 31

/-- Model of `datetime.strptime(s, DEFAULT_DATE_FORMAT)` for the program's fixed
format (year, month, day, hour, minute, second): the whole string must be
consumed, and the calendar fields must be ones the `datetime` constructor
accepts (year at least 1, day within the month).  The format carries no
time-zone directive, so a successful parse is a naive datetime: the caller
builds the `DateTimeObj` with `tzinfo := none`. -/
def parseDefaultFormat (s : String) :
    Option (Nat × Nat × Nat × Nat × Nat × Nat) := do
  let (y, cs) ← takeDigits 0 4 s.data
  let cs ← expectChar '-' cs
  let (mo, cs) ← takeNum2 1 12 cs
  let cs ← expectChar '-' cs
  let (d, cs) ← takeNum2 1 31 cs
  let cs ← expectChar ' ' cs
  let (h, cs) ← takeNum2 0 23 cs
  let cs ← expectChar ':' cs
  let (mi, cs) ← takeNum2 0 59 cs
  let cs ← expectChar ':' cs
  let (sec, cs) ← takeNum2 0 59 cs
  if cs = [] ∧ 1 ≤ y ∧ d ≤ daysInMonth y mo then
    some (y, mo, d, h, mi, sec)
  else none

/-- Model of `pytz.timezone(_TISSEO_TIMEZONE).localize`: attach the Europe/Paris zone
to a naive datetime. -/
def localizeParis (dt : DateTimeObj) : DateTimeObj :=
  ⟨dt.year, dt.month, dt.day, dt.hour, dt.minute, dt.second, some "Europe/Paris"⟩

/-- Model of `_str_datetime_to_datetime_obj` of `src/tisseo.py`: parse the string
against the fixed format (failure raises the validation `TypeError` naming
the format and the offending string); when the parsed datetime is naive,
localize it to Europe/Paris. -/
def str_datetime_to_datetime_obj (str_datetime : String) : Except Err DateTimeObj :=
  match parseDefaultFormat str_datetime with
  | none =>
    .error (.typeError
      ("date must match the format %Y-%m-%d %H:%M:%S, received : " ++ str_datetime))
  | some (y, mo, d, h, mi, sec) =>
    let datetime_obj : DateTimeObj := ⟨y, mo, d, h, mi, sec, none⟩
    .ok (if datetime_obj.tzinfo.isNone then localizeParis datetime_obj else datetime_obj)

example : str_datetime_to_datetime_obj "2020-05-01 10:30:00" =
    .ok ⟨2020, 5, 1, 10, 30, 0, some "Europe/Paris"⟩ := by decide
example : str_datetime_to_datetime_obj "garbage" =
    .error (.typeError "date must match the format %Y-%m-%d %H:%M:%S, received : garbage") := by
  decide
example : str_datetime_to_datetime_obj "2020-02-31 10:30:00" =
    .error (.typeError
      "date must match the format %Y-%m-%d %H:%M:%S, received : 2020-02-31 10:30:00") := by
  decide

/-! ## Passages and the departure pipeline -/

/-- The ambient clock and time-zone database: `toEpoch` maps a (localized)
datetime to an absolute instant in epoch seconds, `nowEpoch` is
`datetime.now()` localized to UTC, as an absolute instant in epoch
seconds.  Both are external inputs of the program. -/
structure Env where
  toEpoch : DateTimeObj → Int
  nowEpoch : Int

/-- Model of `_get_timedelta` of `src/tisseo.py`: `date - now`, as a normalised
Python `timedelta`. -/
def get_timedelta (env : Env) (date : DateTimeObj) : Timedelta :=
  Timedelta.ofSeconds (env.toEpoch date - env.nowEpoch)

/-- The `Passage` record of `src/tisseo.py` (immutable after construction). -/
structure Passage where
  date_str : String
  ligne : String
  destination : String
  date_obj : DateTimeObj
  timedelta : Timedelta
  timedelta_str : String
  /-- The deduplication key, built by the constructor as
  `ligne ++ " : " ++ destination`. -/
  ligne_destination : String
deriving Repr, DecidableEq

/-- Model of `Passage.__init__` of `src/tisseo.py`: parse and localize the timestamp
(which can raise the validation error), compute the remaining time and its
human string, and build the deduplication key. -/
def Passage.make (env : Env) (date ligne destination : String) : Except Err Passage := do
  let date_obj ← str_datetime_to_datetime_obj date
  let td := get_timedelta env date_obj
  return ⟨date, ligne, destination, date_obj, td, timedelta_to_str td,
    ligne ++ " : " ++ destination⟩

/-- Model of `get_stop_area_by_name` of `src/tisseo.py`: every directory entry whose
name equals the query after lowercasing, in directory order. -/
def get_stop_area_by_name (stop_areas_dict : List StopRecord)
    (stop_area_name : String) : List StopRecord :=
  stop_areas_dict.filter (fun stop_area => pyLower stop_area.name == pyLower stop_area_name)

/-- An HTTP response: the status code, the raw body (`ret.text`), and the
departure list `json.loads(ret.text)` decodes from the body (the shape
`departures.departure` of the API's JSON). -/
structure HttpResponse where
  status_code : Nat
  text : String
  departures : List RawDeparture

/-- The request URL `get_prochains_passages_for_stop_area_id` builds. -/
def buildScheduleUrl (key stop_area_id : String) (limit : Nat)
    (from_date : Option String) : String :=
  let url := "https://api.tisseo.fr/v1/stops_schedules.json?stopAreaId=" ++ stop_area_id
    ++ "&key=" ++ key ++ "&number=" ++ toString limit
  match from_date with
  | some fd => url ++ "&datetime=" ++ fd
  | none => url

/-- Model of `get_prochains_passages_for_stop_area_id` of `src/tisseo.py`: one GET of
the schedule URL; a status other than 200 raises the transport error whose
message carries the status code and the URL; otherwise the decoded
departure list is returned. -/
def get_prochains_passages_for_stop_area_id (http : String → HttpResponse)
    (key stop_area_id : String) (limit : Nat) (from_date : Option String) :
    Except Err (List RawDeparture) :=
  let url := buildScheduleUrl key stop_area_id limit from_date
  let ret := http url
  if ret.status_code ≠ 200 then
    .error (.connectionError
      ("Status code " ++ toString ret.status_code ++ " for url " ++ url))
  else
    .ok ret.departures

/-- Model of `_filter_passages_for_one_line` of `src/tisseo.py`: when a line is given
and is not the literal marker string, keep the passages of that line
(case-insensitively); otherwise keep all. -/
def filter_passages_for_one_line (liste_prochains_passages : List Passage)
    (line : Option String) : List Passage :=
  match line with
  | some l =>
    if l ≠ "None" then
      liste_prochains_passages.filter (fun p => pyLower p.ligne == pyLower l)
    else liste_prochains_passages
  | none => liste_prochains_passages

/-- Python `s.lower().replace("-", " ")`: the normalisation both sides of the
destination comparison go through. -/
def replaceHyphens : List Char → List Char
  | [] => []
  | c :: cs => (if c = '-' then ' ' else c) :: replaceHyphens cs

/-- Lowercase and turn every hyphen into a space. -/
def normDest (s : String) : String := ⟨replaceHyphens (pyLower s).data⟩

/-- Model of `_filter_passages_for_a_destination` of `src/tisseo.py`: when a
destination is given and is not the literal marker string, keep the passages
whose destination matches after lowercasing and hyphen-to-space
normalisation on both sides; otherwise keep all. -/
def filter_passages_for_a_destination (liste_prochains_passages : List Passage)
    (destination : Option String) : List Passage :=
  match destination with
  | some dst =>
    if dst ≠ "None" then
      liste_prochains_passages.filter (fun p => normDest p.destination == normDest dst)
    else liste_prochains_passages
  | none => liste_prochains_passages

/-- The deduplication loop of `_filter_passages`: walk the list, keep a
passage when its `ligne_destination` key is not among the keys already
covered, and record its key. -/
def dedupByKey : List Passage → List String → List Passage
  | [], _ => []
  | p :: rest, couvertes =>
    if couvertes.contains p.ligne_destination then dedupByKey rest couvertes
    else p :: dedupByKey rest (couvertes ++ [p.ligne_destination])

/-- Model of `_filter_passages` of `src/tisseo.py`: the line filter, then the
destination filter, then deduplication by the `ligne_destination` key. -/
def filter_passages (liste_prochains_passages : List Passage)
    (line destination : Option String) : List Passage :=
  dedupByKey
    (filter_passages_for_a_destination
      (filter_passages_for_one_line liste_prochains_passages line) destination)
    []

/-- The passage-construction loop of `prochains_passages`: one `Passage` per
raw departure, in API response order; a failing timestamp parse propagates. -/
def passages_from_json (env : Env) : List RawDeparture → Except Err (List Passage)
  | [] => .ok []
  | rd :: rest => do
    let p ← Passage.make env rd.dateTime rd.lineShortName rd.destinationName
    let ps ← passages_from_json env rest
    return p :: ps

/-- The part of `prochains_passages` after a stop id is resolved: fetch up
to 15 departures; with zero departures the function body assigns only the
dead local `p` and then returns the never-assigned local
`liste_prochains_passages`, which raises `UnboundLocalError`; otherwise
build the passages and filter them. -/
def after_resolve (env : Env) (http : String → HttpResponse) (key stop_area_id : String)
    (destination line : Option String) : Except Err (List Passage) := do
  let json_prochains_passages ←
    get_prochains_passages_for_stop_area_id http key stop_area_id 15 none
  if json_prochains_passages.length < 1 then
    .error (.unboundLocal "liste_prochains_passages")
  else do
    let liste_prochains_passages ← passages_from_json env json_prochains_passages
    return filter_passages liste_prochains_passages line destination

/-- Model of `prochains_passages` of `src/tisseo.py`.  The first component of the
result collects what the function prints (the multiple-match warning); the
second is the returned value or the raised exception.  Zero name matches
raise the not-found `KeyError` before any HTTP request; otherwise the first
match in directory order is used. -/
def prochains_passages (env : Env) (stop_areas_dict : List StopRecord)
    (http : String → HttpResponse) (key stop_area_name : String)
    (destination line : Option String) : List String × Except Err (List Passage) :=
  let stop_areas := get_stop_area_by_name stop_areas_dict stop_area_name
  if stop_areas.length < 1 then
    ([], .error (.keyError ("Arrêt " ++ stop_area_name ++ " inconnu")))
  else
    let warnings :=
      if stop_areas.length > 1 then ["Plusieurs arrêts trouvés pour " ++ stop_area_name]
      else []
    (warnings,
      after_resolve env http key (stop_areas.headD ⟨"", ""⟩).id destination line)

/-! ## Specification-side renderings (for comparison with the code) -/

/-- The spec's deduplication step rendered independently of the code's loop:
fold over the list, appending a passage exactly when no already-kept passage
carries its `ligne_destination` key. -/
def dedupKeySpec (ps : List Passage) : List Passage :=
  ps.foldl
    (fun kept p =>
      if (kept.map (fun q => q.ligne_destination)).contains p.ligne_destination then kept
      else kept ++ [p])
    []

/-- Modelled from the claim's words: keep only the first occurrence of each
distinct (line, destination) pair, preserving order. -/
def dedupPairSpec (ps : List Passage) : List Passage :=
  ps.foldl
    (fun kept p =>
      if (kept.map (fun q => (q.ligne, q.destination))).contains (p.ligne, p.destination)
      then kept
      else kept ++ [p])
    []

/-! ## Concrete fixtures -/

/-- A fixed clock and time-zone database for concrete runs: every datetime
maps to instant 0 and now is instant 0. -/
def env0 : Env := ⟨fun _ => 0, 0⟩

/-- A concretely constructed passage (the error branch is unreachable for
the well-formed timestamps the fixtures use). -/
def mkP (date ligne destination : String) : Passage :=
  match Passage.make env0 date ligne destination with
  | .ok p => p
  | .error _ => ⟨"", "", "", ⟨0, 0, 0, 0, 0, 0, none⟩, ⟨0, 0⟩, "", ""⟩

/-- Whether an `Except` value is a normal return, not a raised exception. -/
def isOkB {α : Type} : Except Err α → Bool
  | .ok _ => true
  | .error _ => false

example :
    filter_passages
      [mkP "2020-01-01 10:52:00" "L6" "Ramonville",
       mkP "2020-01-01 10:55:00" "109" "Labège",
       mkP "2020-01-01 11:15:00" "L6" "Ramonville",
       mkP "2020-01-01 12:05:00" "L6" "Castanet"] none none =
      [mkP "2020-01-01 10:52:00" "L6" "Ramonville",
       mkP "2020-01-01 10:55:00" "109" "Labège",
       mkP "2020-01-01 12:05:00" "L6" "Castanet"] := by decide

example :
    prochains_passages env0 [⟨"Capitole", "stop_area_1"⟩] (fun _ => ⟨200, "", []⟩)
      "k" "Capitole" none none =
      ([], .error (.unboundLocal "liste_prochains_passages")) := by decide

example :
    prochains_passages env0 [⟨"Capitole", "stop_area_1"⟩]
      (fun _ => ⟨200, "", [⟨"2020-01-01 10:52:00", "L6", "Ramonville"⟩]⟩)
      "k" "Capitole" none none =
      ([], .ok [mkP "2020-01-01 10:52:00" "L6" "Ramonville"]) := by decide



/-! ## Deduplication lemmas -/

/-- The loop of `dedupByKey`, started with the keys of an already-kept list,
computes the same fold `dedupKeySpec` computes. -/
theorem dedupByKey_eq_foldl (ps : List Passage) :
    ∀ kept : List Passage,
      kept ++ dedupByKey ps (kept.map (fun q => q.ligne_destination)) =
        ps.foldl
          (fun kept p =>
            if (kept.map (fun q => q.ligne_destination)).contains p.ligne_destination then kept
            else kept ++ [p])
          kept := by
  induction ps with
  | nil => intro kept; simp [dedupByKey]
  | cons p rest ih =>
    intro kept
    simp only [dedupByKey, List.foldl_cons]
    by_cases h : (kept.map (fun q => q.ligne_destination)).contains p.ligne_destination
    · rw [if_pos h, if_pos h]
      exact ih kept
    · rw [if_neg h, if_neg h]
      have hmap : kept.map (fun q => q.ligne_destination) ++ [p.ligne_destination] =
          (kept ++ [p]).map (fun q => q.ligne_destination) := by simp
      rw [hmap]
      calc kept ++ (p :: dedupByKey rest ((kept ++ [p]).map (fun q => q.ligne_destination)))
          = (kept ++ [p]) ++ dedupByKey rest ((kept ++ [p]).map (fun q => q.ligne_destination)) := by
            simp
        _ = _ := ih (kept ++ [p])

/-! ## Claims -/

/-- C1: with a resolved stop and a fetch that returns zero departures,
`prochains_passages` does NOT return the empty sequence: the function body
leaves the local `liste_prochains_passages` unassigned on that path and the
final `return` raises `UnboundLocalError`.  The claim (and the spec) say the
result should be the empty sequence without an error; this theorem records
what the code does at that input. -/
theorem C1_empty_fetch_raises_unbound_local :
    prochains_passages env0 [⟨"Capitole", "stop_area_1"⟩] (fun _ => ⟨200, "", []⟩)
        "k" "Capitole" none none =
      ([], .error (.unboundLocal "liste_prochains_passages")) ∧
    isOkB (prochains_passages env0 [⟨"Capitole", "stop_area_1"⟩] (fun _ => ⟨200, "", []⟩)
        "k" "Capitole" none none).2 = false := by
  decide

/-- C2 (counterexample): deduplication as the claim states it — first
occurrence of each distinct (line, destination) pair — fails on the code:
the two passages below have different pairs (so pair-deduplication keeps
both, as `dedupPairSpec` shows) but equal flat keys, and the code's
deduplication drops the second. -/
theorem C2_counterexample_pairs_not_key :
    filter_passages
        [mkP "2020-01-01 10:52:00" "X : Y" "Z", mkP "2020-01-01 10:55:00" "X" "Y : Z"]
        none none =
      [mkP "2020-01-01 10:52:00" "X : Y" "Z"] ∧
    dedupPairSpec
        [mkP "2020-01-01 10:52:00" "X : Y" "Z", mkP "2020-01-01 10:55:00" "X" "Y : Z"] =
      [mkP "2020-01-01 10:52:00" "X : Y" "Z", mkP "2020-01-01 10:55:00" "X" "Y : Z"] ∧
    (((mkP "2020-01-01 10:52:00" "X : Y" "Z").ligne,
        (mkP "2020-01-01 10:52:00" "X : Y" "Z").destination) ==
      ((mkP "2020-01-01 10:55:00" "X" "Y : Z").ligne,
        (mkP "2020-01-01 10:55:00" "X" "Y : Z").destination)) = false := by
  decide

/-- C2 (amended): the deduplication step keeps exactly the first occurrence
of each distinct `ligne_destination` key (the flat string the constructor
builds from line and destination), preserving the original relative order,
and on the spec's example — where keys and pairs coincide — it yields
exactly the claimed three passages. -/
theorem C2_dedup_first_occurrence_of_key :
    (∀ ps : List Passage, dedupByKey ps [] = dedupKeySpec ps) ∧
    filter_passages
        [mkP "2020-01-01 10:52:00" "L6" "Ramonville",
         mkP "2020-01-01 10:55:00" "109" "Labège",
         mkP "2020-01-01 11:15:00" "L6" "Ramonville",
         mkP "2020-01-01 12:05:00" "L6" "Castanet"] none none =
      [mkP "2020-01-01 10:52:00" "L6" "Ramonville",
       mkP "2020-01-01 10:55:00" "109" "Labège",
       mkP "2020-01-01 12:05:00" "L6" "Castanet"] := by
  refine ⟨fun ps => ?_, by decide⟩
  simpa [dedupKeySpec] using dedupByKey_eq_foldl ps []

/-- C10: the deduplication key is the flat string built from line and
destination, and it can collide for distinct (line, destination) pairs: the
two passages below have different pairs yet the same key, and the later one
is dropped by the deduplication step. -/
theorem C10_flat_key_collision :
    ((mkP "2020-01-01 10:52:00" "A : B" "C").ligne_destination ==
      (mkP "2020-01-01 10:55:00" "A" "B : C").ligne_destination) = true ∧
    (((mkP "2020-01-01 10:52:00" "A : B" "C").ligne,
        (mkP "2020-01-01 10:52:00" "A : B" "C").destination) ==
      ((mkP "2020-01-01 10:55:00" "A" "B : C").ligne,
        (mkP "2020-01-01 10:55:00" "A" "B : C").destination)) = false ∧
    filter_passages
        [mkP "2020-01-01 10:52:00" "A : B" "C", mkP "2020-01-01 10:55:00" "A" "B : C"]
        none none =
      [mkP "2020-01-01 10:52:00" "A : B" "C"] := by
  decide

/-- C3: the human relative-time string follows exactly the claimed
precedence — positive days win and show only the day count; otherwise
positive hours show the hour count with the minutes appended exactly when
they are positive; otherwise zero minutes give the fixed literal and
positive minutes give the minute count — and the two cited instances
evaluate to exactly the claimed strings. -/
theorem C3_timedelta_to_str_precedence :
    (∀ (dd : Int) (ss : Nat), 0 < dd →
      timedelta_to_str ⟨dd, ss⟩ = toString dd ++ " jours") ∧
    (∀ (dd : Int) (ss : Nat), dd ≤ 0 → 0 < ss / 3600 →
      timedelta_to_str ⟨dd, ss⟩ =
        if 0 < ss % 3600 / 60 then
          (toString (ss / 3600) ++ " heures") ++
            (" et " ++ toString (ss % 3600 / 60) ++ " minutes")
        else toString (ss / 3600) ++ " heures") ∧
    (∀ (dd : Int) (ss : Nat), dd ≤ 0 → ss / 3600 = 0 → ss % 3600 / 60 < 1 →
      timedelta_to_str ⟨dd, ss⟩ = "moins d'une minute") ∧
    (∀ (dd : Int) (ss : Nat), dd ≤ 0 → ss / 3600 = 0 → 1 ≤ ss % 3600 / 60 →
      timedelta_to_str ⟨dd, ss⟩ = toString (ss % 3600 / 60) ++ " minutes") ∧
    timedelta_to_str ⟨0, 2 * 3600 + 15 * 60⟩ = "2 heures et 15 minutes" ∧
    timedelta_to_str ⟨0, 0⟩ = "moins d'une minute" := by
  refine ⟨?_, ?_, ?_, ?_, by decide, by decide⟩
  · intro dd ss h
    simp only [timedelta_to_str]
    rw [if_pos h]
  · intro dd ss h1 h2
    simp only [timedelta_to_str]
    rw [if_neg (by omega), if_pos h2]
  · intro dd ss h1 h2 h3
    simp only [timedelta_to_str]
    rw [if_neg (by omega), if_neg (by omega), if_pos h3]
  · intro dd ss h1 h2 h3
    simp only [timedelta_to_str]
    rw [if_neg (by omega), if_neg (by omega), if_neg (by omega)]

/-- C4: the destination filter keeps everything when the destination is
absent or is the literal marker string; otherwise it keeps, in order,
exactly the passages whose destination equals the argument after
lowercasing and hyphen-to-space normalisation on both sides — so the
argument with a space matches the raw destination with a hyphen. -/
theorem C4_destination_filter :
    (∀ ps : List Passage, filter_passages_for_a_destination ps none = ps) ∧
    (∀ ps : List Passage, filter_passages_for_a_destination ps (some "None") = ps) ∧
    (∀ (ps : List Passage) (dst : String), dst ≠ "None" →
      List.Sublist (filter_passages_for_a_destination ps (some dst)) ps ∧
      ∀ p : Passage, p ∈ filter_passages_for_a_destination ps (some dst) ↔
        p ∈ ps ∧ normDest p.destination = normDest dst) ∧
    filter_passages_for_a_destination
        [mkP "2020-01-01 10:52:00" "L6" "Saint-Cyprien"] (some "Saint Cyprien") =
      [mkP "2020-01-01 10:52:00" "L6" "Saint-Cyprien"] := by
  refine ⟨fun ps => rfl, fun ps => by simp [filter_passages_for_a_destination],
    fun ps dst h => ?_, by decide⟩
  simp only [filter_passages_for_a_destination]
  rw [if_pos h]
  exact ⟨List.filter_sublist ps, fun p => by simp [List.mem_filter]⟩

/-- C5: the stop lookup returns, in directory order, exactly the directory
entries whose name equals the query after lowercasing; in particular the
lowercase query matches the capitalised directory entry. -/
theorem C5_stop_lookup_case_insensitive :
    (∀ (dir : List StopRecord) (name : String),
      List.Sublist (get_stop_area_by_name dir name) dir ∧
      ∀ r : StopRecord, r ∈ get_stop_area_by_name dir name ↔
        r ∈ dir ∧ pyLower r.name = pyLower name) ∧
    get_stop_area_by_name [⟨"Capitole", "stop_area_1"⟩] "capitole" =
      [⟨"Capitole", "stop_area_1"⟩] := by
  refine ⟨fun dir name => ⟨List.filter_sublist dir, fun r => ?_⟩, by decide⟩
  simp [get_stop_area_by_name, List.mem_filter]

/-- C6: a stop name with zero directory matches makes `prochains_passages`
raise the not-found error, and the result is the same for every network —
no request is consulted; with more than one match the function does not
fail at resolution: it emits exactly the multiple-match warning and
continues with the first match in directory order. -/
theorem C6_resolution_contract :
    (∀ (env : Env) (dir : List StopRecord) (http : String → HttpResponse)
        (key name : String) (dest line : Option String),
      get_stop_area_by_name dir name = [] →
      prochains_passages env dir http key name dest line =
        ([], .error (.keyError ("Arrêt " ++ name ++ " inconnu")))) ∧
    (∀ (env : Env) (dir : List StopRecord) (http : String → HttpResponse)
        (key name : String) (dest line : Option String),
      1 < (get_stop_area_by_name dir name).length →
      prochains_passages env dir http key name dest line =
        (["Plusieurs arrêts trouvés pour " ++ name],
         after_resolve env http key
           ((get_stop_area_by_name dir name).headD ⟨"", ""⟩).id dest line)) ∧
    prochains_passages env0 [] (fun _ => ⟨200, "", []⟩) "k" "Capitole" none none =
      ([], .error (.keyError "Arrêt Capitole inconnu")) ∧
    prochains_passages env0 [⟨"Capitole", "stop_a"⟩, ⟨"CAPITOLE", "stop_b"⟩]
        (fun _ => ⟨200, "", [⟨"2020-01-01 10:52:00", "L6", "Ramonville"⟩]⟩)
        "k" "capitole" none none =
      (["Plusieurs arrêts trouvés pour capitole"],
       .ok [mkP "2020-01-01 10:52:00" "L6" "Ramonville"]) := by
  refine ⟨?_, ?_, by decide, by decide⟩
  · intro env dir http key name dest line h
    simp [prochains_passages, h]
  · intro env dir http key name dest line h
    simp only [prochains_passages]
    rw [if_neg (by omega), if_pos h]

/-- C7 (counterexample): a non-200 response raises the transport error, but
its message carries the status code and the request URL, not the response
body: at this input the body is absent from the message. -/
theorem C7_counterexample_error_lacks_body :
    get_prochains_passages_for_stop_area_id (fun _ => ⟨404, "SECRETBODY", []⟩)
        "k" "sid" 15 none =
      .error (.connectionError
        "Status code 404 for url https://api.tisseo.fr/v1/stops_schedules.json?stopAreaId=sid&key=k&number=15") ∧
    strContains
        "Status code 404 for url https://api.tisseo.fr/v1/stops_schedules.json?stopAreaId=sid&key=k&number=15"
        "404" = true ∧
    strContains
        "Status code 404 for url https://api.tisseo.fr/v1/stops_schedules.json?stopAreaId=sid&key=k&number=15"
        "SECRETBODY" = false := by
  decide

/-- C7 (amended): a response status other than 200 makes the departure
fetch raise the transport error whose message carries the status code and
the request URL (not the body); a 200 status raises nothing and the decoded
departures are returned. -/
theorem C7_fetch_status_handling :
    (∀ (http : String → HttpResponse) (key sid : String) (limit : Nat)
        (fd : Option String),
      (http (buildScheduleUrl key sid limit fd)).status_code ≠ 200 →
      get_prochains_passages_for_stop_area_id http key sid limit fd =
        .error (.connectionError
          ("Status code " ++ toString (http (buildScheduleUrl key sid limit fd)).status_code
            ++ " for url " ++ buildScheduleUrl key sid limit fd))) ∧
    (∀ (http : String → HttpResponse) (key sid : String) (limit : Nat)
        (fd : Option String),
      (http (buildScheduleUrl key sid limit fd)).status_code = 200 →
      get_prochains_passages_for_stop_area_id http key sid limit fd =
        .ok (http (buildScheduleUrl key sid limit fd)).departures) ∧
    get_prochains_passages_for_stop_area_id
        (fun _ => ⟨200, "irrelevant", [⟨"2020-01-01 10:52:00", "L6", "Ramonville"⟩]⟩)
        "k" "sid" 15 none =
      .ok [⟨"2020-01-01 10:52:00", "L6", "Ramonville"⟩] := by
  refine ⟨?_, ?_, by decide⟩
  · intro http key sid limit fd h
    simp only [get_prochains_passages_for_stop_area_id]
    rw [if_pos h]
  · intro http key sid limit fd h
    simp only [get_prochains_passages_for_stop_area_id]
    rw [if_neg (fun hn => hn h)]

/-- C8: a timestamp that parses under the fixed format always yields a
timezone-aware datetime: the format has no zone directive, so the parsed
value is naive and the Europe/Paris zone is attached; a string that does
not parse raises the validation error naming the expected format and the
offending string. -/
theorem C8_parsed_time_timezone_aware :
    (∀ (s : String) (dt : DateTimeObj),
      str_datetime_to_datetime_obj s = .ok dt → dt.tzinfo = some "Europe/Paris") ∧
    (∀ (s : String) (e : Err),
      str_datetime_to_datetime_obj s = .error e →
      e = .typeError ("date must match the format %Y-%m-%d %H:%M:%S, received : " ++ s)) ∧
    str_datetime_to_datetime_obj "2020-05-01 10:30:00" =
      .ok ⟨2020, 5, 1, 10, 30, 0, some "Europe/Paris"⟩ ∧
    str_datetime_to_datetime_obj "not a date" =
      .error (.typeError "date must match the format %Y-%m-%d %H:%M:%S, received : not a date") := by
  refine ⟨?_, ?_, by decide, by decide⟩
  · intro s dt h
    unfold str_datetime_to_datetime_obj at h
    cases hp : parseDefaultFormat s with
    | none => rw [hp] at h; cases h
    | some v =>
      obtain ⟨y, mo, d, hh, mi, sec⟩ := v
      rw [hp] at h
      simp only [Option.isNone_none, if_true, localizeParis, Except.ok.injEq] at h
      rw [← h]
  · intro s e h
    unfold str_datetime_to_datetime_obj at h
    cases hp : parseDefaultFormat s with
    | none =>
      rw [hp] at h
      injection h with h
      exact h.symm
    | some v =>
      obtain ⟨y, mo, d, hh, mi, sec⟩ := v
      rw [hp] at h
      cases h

/-- With a non-positive day count the human string comes from the hour or
minute branches only: it is the fixed literal, a positive minute count, a
positive hour count, or a positive hour count with a positive minute
count — never the day branch. -/
theorem timedelta_to_str_shape_of_days_nonpos (dd : Int) (ss : Nat) (hd : dd ≤ 0) :
    timedelta_to_str ⟨dd, ss⟩ = "moins d'une minute" ∨
    (∃ m : Nat, 0 < m ∧ timedelta_to_str ⟨dd, ss⟩ = toString m ++ " minutes") ∨
    (∃ hh : Nat, 0 < hh ∧ timedelta_to_str ⟨dd, ss⟩ = toString hh ++ " heures") ∨
    (∃ hh m : Nat, 0 < hh ∧ 0 < m ∧
      timedelta_to_str ⟨dd, ss⟩ =
        (toString hh ++ " heures") ++ (" et " ++ toString m ++ " minutes")) := by
  by_cases h1 : 0 < ss / 3600
  · by_cases h2 : 0 < ss % 3600 / 60
    · refine Or.inr (Or.inr (Or.inr ⟨ss / 3600, ss % 3600 / 60, h1, h2, ?_⟩))
      simp only [timedelta_to_str]
      rw [if_neg (by omega), if_pos h1, if_pos h2]
    · refine Or.inr (Or.inr (Or.inl ⟨ss / 3600, h1, ?_⟩))
      simp only [timedelta_to_str]
      rw [if_neg (by omega), if_pos h1, if_neg h2]
  · by_cases h2 : ss % 3600 / 60 < 1
    · refine Or.inl ?_
      simp only [timedelta_to_str]
      rw [if_neg (by omega), if_neg h1, if_pos h2]
    · refine Or.inr (Or.inl ⟨ss % 3600 / 60, by omega, ?_⟩)
      simp only [timedelta_to_str]
      rw [if_neg (by omega), if_neg h1, if_neg h2]

/-- C9: a duration strictly between minus one day and zero normalises to a
day count of exactly -1 with the non-negative remainder `t + 86400`
seconds, so the day branch is skipped and the human string is one of the
positive hour/minute forms (never a negative value, never the day form);
a departure 30 minutes in the past formats as the positive complement of
the day. -/
theorem C9_past_duration_formats_positive :
    (∀ t : Int, -86400 < t → t < 0 →
      (Timedelta.ofSeconds t).days = -1 ∧
      ((Timedelta.ofSeconds t).seconds : Int) = t + 86400 ∧
      (timedelta_to_str (Timedelta.ofSeconds t) = "moins d'une minute" ∨
       (∃ m : Nat, 0 < m ∧
         timedelta_to_str (Timedelta.ofSeconds t) = toString m ++ " minutes") ∨
       (∃ hh : Nat, 0 < hh ∧
         timedelta_to_str (Timedelta.ofSeconds t) = toString hh ++ " heures") ∨
       (∃ hh m : Nat, 0 < hh ∧ 0 < m ∧
         timedelta_to_str (Timedelta.ofSeconds t) =
           (toString hh ++ " heures") ++ (" et " ++ toString m ++ " minutes")))) ∧
    Timedelta.ofSeconds (-1800) = ⟨-1, 84600⟩ ∧
    timedelta_to_str (Timedelta.ofSeconds (-1800)) = "23 heures et 30 minutes" := by
  refine ⟨?_, by decide, by decide⟩
  intro t h1 h2
  have hdiv : t / 86400 = -1 := by omega
  have hmod : t % 86400 = t + 86400 := by omega
  have hdq : Timedelta.ofSeconds t = ⟨-1, (t + 86400).toNat⟩ := by
    unfold Timedelta.ofSeconds
    rw [Int.fdiv_eq_ediv _ (by norm_num), Int.fmod_eq_emod _ (by norm_num), hdiv, hmod]
  refine ⟨by rw [hdq], ?_, ?_⟩
  · rw [hdq]
    simp only []
    omega
  · rw [hdq]
    exact timedelta_to_str_shape_of_days_nonpos (-1) ((t + 86400).toNat) (by norm_num)
